import Mathlib

/-!
Shallow embedding of the agile-metrics pipeline
(`metrics_analyzer/utils.py`, `metrics_analyzer/data_processor.py`,
`metrics_analyzer/metrics_calculator.py`) together with theorems that
settle the frozen claims about the natural-language specification.

Dates are modelled as day numbers of the proleptic Gregorian calendar
(days counted from 0000-03-01, the standard "days from civil" scheme),
so that weekday arithmetic and the configured holiday list can be
evaluated on concrete calendar dates.  Nullable Python floats are
modelled as `Option ℚ` (with `none` playing the role of `NaN`/`null`),
and pandas column sums, which skip nulls, appear as sums of
`Option.getD · 0`.
-/

namespace AgileMetrics

/-! ## Calendar: day numbers, weekdays, business days (`utils.py`) -/

/-- Day number of a Gregorian calendar date, counting days from
0000-03-01 (the classic civil-from-days correspondence).  Only used on
years ≥ 1, where all intermediate quantities stay in `ℕ`. -/
def dayNumber (y m d : ℕ) : ℕ :=
  let yAdj := if m ≤ 2 then y - 1 else y
  let era := yAdj / 400
  let yoe := yAdj % 400
  let mp := if m > 2 then m - 3 else m + 9
  let doy := (153 * mp + 2) / 5 + (d - 1)
  let doe := yoe * 365 + yoe / 4 - yoe / 100 + doy
  era * 146097 + doe

/-- Weekday of a day number, with Monday = 0 … Sunday = 6, matching
Python's `date.weekday()`. -/
def weekday (n : ℕ) : ℕ := (n + 2) % 7

/-- The configured holiday list (`config.HOLIDAYS`, Chilean national
holidays 2024–2025), as day numbers. -/
def HOLIDAYS : List ℕ :=
  [dayNumber 2024 1 1, dayNumber 2024 3 29, dayNumber 2024 3 30,
   dayNumber 2024 5 1, dayNumber 2024 5 21, dayNumber 2024 6 20,
   dayNumber 2024 6 29, dayNumber 2024 7 16, dayNumber 2024 8 15,
   dayNumber 2024 9 18, dayNumber 2024 9 19, dayNumber 2024 9 20,
   dayNumber 2024 10 12, dayNumber 2024 10 31, dayNumber 2024 11 1,
   dayNumber 2024 12 8, dayNumber 2024 12 25,
   dayNumber 2025 1 1, dayNumber 2025 4 18, dayNumber 2025 4 19,
   dayNumber 2025 5 1, dayNumber 2025 5 21, dayNumber 2025 6 20,
   dayNumber 2025 6 29, dayNumber 2025 7 16, dayNumber 2025 8 15,
   dayNumber 2025 9 18, dayNumber 2025 9 19, dayNumber 2025 10 12,
   dayNumber 2025 10 31, dayNumber 2025 11 1, dayNumber 2025 12 8,
   dayNumber 2025 12 25]

/-- A day counts as a business day when its weekday is Monday–Friday
and it is not in the holiday set (`calculate_business_days` loop body). -/
def isBusinessDay (d : ℕ) (holidays : List ℕ) : Bool :=
  if weekday d < 5 then !(holidays.contains d) else false

/-- The `while current_date <= end_date` loop of
`calculate_business_days`: count the business days in the inclusive
range `[s, e]`.  When `e < s` the range is empty and the count is 0. -/
def countBusinessDays (s e : ℕ) (holidays : List ℕ) : ℕ :=
  ((List.range (e + 1 - s)).map (fun i => s + i)).countP
    (fun d => isBusinessDay d holidays)

/-- `utils.calculate_business_days`: `none` when either date is null,
otherwise the inclusive business-day count. -/
def calculate_business_days (startDate endDate : Option ℕ) (holidays : List ℕ) :
    Option ℕ :=
  match startDate, endDate with
  | some s, some e => some (countBusinessDays s e holidays)
  | _, _ => none

/-! ## Sprint unification (`utils.extract_sprint_number`) -/

/-- Python `str.strip()`: drop leading and trailing whitespace. -/
def stripChars (cs : List Char) : List Char :=
  ((cs.dropWhile (fun c => c.isWhitespace)).reverse.dropWhile
    (fun c => c.isWhitespace)).reverse

/-- Python `str.strip()` on a string. -/
def pyStrip (s : String) : String := String.mk (stripChars s.toList)

/-- Python `str.lower()` (ASCII range, all that the pipeline needs). -/
def pyLower (s : String) : String := String.mk (s.toList.map Char.toLower)

/-- Numeric value of a digit run. -/
def digitsToNat (ds : List Char) : ℕ :=
  ds.foldl (fun a c => 10 * a + (c.toNat - 48)) 0

/-- Case-insensitive comparison of a character against a lowercase
letter (the regex is compiled with `re.IGNORECASE`). -/
def lowerEq (c : Char) (d : Char) : Bool := c.toLower == d

/-- Try to match the regex `Sprint\s*(\d+)` (case-insensitive) at the
head of the character list, returning the numeric value of the digit
group on success. -/
def matchSprintAt (cs : List Char) : Option ℕ :=
  match cs with
  | c1 :: c2 :: c3 :: c4 :: c5 :: c6 :: rest =>
    if lowerEq c1 's' && lowerEq c2 'p' && lowerEq c3 'r' &&
       lowerEq c4 'i' && lowerEq c5 'n' && lowerEq c6 't' then
      let afterWs := rest.dropWhile (fun c => c.isWhitespace)
      let ds := afterWs.takeWhile (fun c => c.isDigit)
      if ds.isEmpty then none else some (digitsToNat ds)
    else none
  | _ => none

/-- `re.search`: leftmost position at which `Sprint\s*(\d+)` matches. -/
def findSprintNumber : List Char → Option ℕ
  | [] => none
  | c :: rest =>
    match matchSprintAt (c :: rest) with
    | some n => some n
    | none => findSprintNumber rest

/-- `utils.extract_sprint_number` on a non-null label: strip the label,
return `"Sprint N"` for the first `Sprint <digits>` pattern (the
`int(...)` conversion drops leading zeros), else the stripped label. -/
def extract_sprint_number (sprintName : String) : String :=
  let s := pyStrip sprintName
  match findSprintNumber s.toList with
  | some n => "Sprint " ++ toString n
  | none => s

/-! ## Sprint-completion marker (`utils.is_sprint_completed`) -/

/-- A raw spreadsheet cell as seen by `is_sprint_completed`: null, a
string, or a boolean. -/
inductive CellValue where
  | null : CellValue
  | str : String → CellValue
  | bool : Bool → CellValue
deriving DecidableEq, Repr

/-- `utils.is_sprint_completed`: null ↦ false, strings compare their
stripped lowercase form against `"v"`, booleans pass through. -/
def is_sprint_completed : CellValue → Bool
  | .null => false
  | .str s => pyLower (pyStrip s) == "v"
  | .bool b => b

/-! ## Processed task rows (the DataFrame consumed by `MetricsCalculator`)

One row of the processed table, restricted to the columns the metric
formulas read: `Tipo Tarea`, `Estimación Original`, `Puntos Logrados`,
`Is_Delivered`, `Is_Bug`, `Cycle_Time_Days`, `Sprint_Unified`, `Month`.
Nullable numeric cells are `Option ℚ`. -/
structure Task where
  tipoTarea : String
  estimacionOriginal : Option ℚ
  puntosLogrados : Option ℚ
  isDelivered : Bool
  isBug : Bool
  cycleTimeDays : Option ℚ
  sprintUnified : String
  month : Option String
deriving DecidableEq, Repr

/-- pandas `Series.sum()` over a nullable column: nulls are skipped,
i.e. contribute 0 (also the behaviour of `.fillna(0).sum()`). -/
def optSum (f : Task → Option ℚ) (ts : List Task) : ℚ :=
  (ts.map (fun t => (f t).getD 0)).sum

/-- `sprint_data[sprint_data['Is_Delivered']]`. -/
def deliveredTasks (ts : List Task) : List Task := ts.filter (fun t => t.isDelivered)

/-- `sprint_data[~sprint_data['Is_Delivered']]`. -/
def notDeliveredTasks (ts : List Task) : List Task := ts.filter (fun t => !t.isDelivered)

/-- `np.mean` of a Python list, guarded by the `if xs else nan` pattern
used throughout `metrics_calculator.py`: `none` for the empty list. -/
def meanQ : List ℚ → Option ℚ
  | [] => none
  | l => some (l.sum / (l.length : ℚ))

/-- Insert into an ascending list (helper for the median). -/
def insertAsc (x : ℚ) : List ℚ → List ℚ
  | [] => [x]
  | y :: ys => if x ≤ y then x :: y :: ys else y :: insertAsc x ys

/-- Ascending insertion sort (kernel-reducible stand-in for the sort
inside `Series.median()`). -/
def sortAsc : List ℚ → List ℚ
  | [] => []
  | x :: xs => insertAsc x (sortAsc xs)

/-- `Series.median()` over the non-null values: middle element of the
sorted list, or the mean of the two middle elements; `none` when the
list is empty. -/
def medianQ : List ℚ → Option ℚ
  | [] => none
  | x :: xs =>
    let s := sortAsc (x :: xs)
    let n := (x :: xs).length
    if n % 2 = 1 then some (s.getD (n / 2) 0)
    else some ((s.getD (n / 2 - 1) 0 + s.getD (n / 2) 0) / 2)

/-! ## Per-sprint metrics (`MetricsCalculator._calculate_single_sprint_metrics`) -/

/-- Velocity: `Estimación Original` summed over delivered tasks plus
`Puntos Logrados` (nulls as 0) summed over non-delivered tasks. -/
def sprintVelocity (ts : List Task) : ℚ :=
  optSum (fun t => t.estimacionOriginal) (deliveredTasks ts) +
    optSum (fun t => t.puntosLogrados) (notDeliveredTasks ts)

/-- Committed points: `Estimación Original` summed over all tasks of the
sprint. -/
def committedPoints (ts : List Task) : ℚ :=
  optSum (fun t => t.estimacionOriginal) ts

/-- Delivered points: `Estimación Original` summed over delivered tasks. -/
def deliveredPoints (ts : List Task) : ℚ :=
  optSum (fun t => t.estimacionOriginal) (deliveredTasks ts)

/-- Predictability: `100 * delivered / committed`, null when the
committed total is not positive. -/
def sprintPredictability (ts : List Task) : Option ℚ :=
  if committedPoints ts > 0
  then some (deliveredPoints ts / committedPoints ts * 100)
  else none

/-- Efficiency: `velocity / team_size`, null unless `team_size > 0`. -/
def sprintEfficiency (teamSize : ℤ) (ts : List Task) : Option ℚ :=
  if teamSize > 0 then some (sprintVelocity ts / (teamSize : ℚ)) else none

/-- Estimated points of delivered bugs. -/
def bugPointsEstimated (ts : List Task) : ℚ :=
  optSum (fun t => t.estimacionOriginal)
    ((deliveredTasks ts).filter (fun t => t.isBug))

/-- Estimated points of all delivered tasks (the rework denominator). -/
def totalPointsEstimated (ts : List Task) : ℚ :=
  optSum (fun t => t.estimacionOriginal) (deliveredTasks ts)

/-- Rework (estimated): bug points over delivered estimated points, null
when the denominator is not positive. -/
def sprintRework (ts : List Task) : Option ℚ :=
  if totalPointsEstimated ts > 0
  then some (bugPointsEstimated ts / totalPointsEstimated ts * 100)
  else none

/-- Rework over velocity (estimated numerator), null when velocity is
not positive. -/
def sprintReworkAchieved (ts : List Task) : Option ℚ :=
  if sprintVelocity ts > 0
  then some (bugPointsEstimated ts / sprintVelocity ts * 100)
  else none

/-- The `bug_points_effective` accumulation loop: per delivered bug, add
`Puntos Logrados` when non-null, else `Estimación Original`.  A null
`Estimación Original` poisons the Python float sum with `NaN`, which the
`Option` fold mirrors with `none`. -/
def bugPointsEffective (ts : List Task) : Option ℚ :=
  ((deliveredTasks ts).filter (fun t => t.isBug)).foldl
    (fun acc t =>
      match acc, (match t.puntosLogrados with
                  | some p => some p
                  | none => t.estimacionOriginal) with
      | some a, some b => some (a + b)
      | _, _ => none)
    (some 0)

/-- Rework over velocity (effective-points numerator), null when
velocity is not positive (or when the numerator degenerated to NaN). -/
def sprintReworkVelocity (ts : List Task) : Option ℚ :=
  if sprintVelocity ts > 0
  then (bugPointsEffective ts).map (fun b => b / sprintVelocity ts * 100)
  else none

/-- Per-sprint mean cycle time over the non-null cycle times of the
delivered tasks (`dropna` then `mean`). -/
def sprintCycleTimes (ts : List Task) : List ℚ :=
  (deliveredTasks ts).filterMap (fun t => t.cycleTimeDays)

/-- `Cycle_Time_Avg` of one sprint. -/
def sprintCycleTimeAvg (ts : List Task) : Option ℚ :=
  meanQ (sprintCycleTimes ts)

/-! ## Month-level metrics (`MetricsCalculator._calculate_single_month_metrics`) -/

/-- `Series.unique()`: distinct values in order of first appearance. -/
def uniqueAux : List String → List String → List String
  | [], _ => []
  | s :: rest, seen =>
    if s ∈ seen then uniqueAux rest seen else s :: uniqueAux rest (s :: seen)

/-- Distinct values of a list, keeping first occurrences. -/
def uniqueKeepFirst (l : List String) : List String := uniqueAux l []

/-- `month_data['Sprint_Unified'].unique()`. -/
def monthSprints (ts : List Task) : List String :=
  uniqueKeepFirst (ts.map (fun t => t.sprintUnified))

/-- `month_data[month_data['Sprint_Unified'] == unified_sprint]`. -/
def tasksOfSprint (ts : List Task) (u : String) : List Task :=
  ts.filter (fun t => t.sprintUnified = u)

/-- The per-sprint velocities recomputed inside the month loop (the loop
body repeats the sprint velocity formula verbatim). -/
def monthSprintVelocities (ts : List Task) : List ℚ :=
  (monthSprints ts).map (fun u => sprintVelocity (tasksOfSprint ts u))

/-- `Velocity_Avg` of a month: mean of the per-sprint velocities. -/
def monthVelocityAvg (ts : List Task) : Option ℚ :=
  meanQ (monthSprintVelocities ts)

/-- `Velocity_Total` of a month: sum of the per-sprint velocities. -/
def monthVelocityTotal (ts : List Task) : ℚ :=
  (monthSprintVelocities ts).sum

/-- `Cycle_Time_Avg` of a month: mean over the sprints that have at
least one delivered task with a non-null cycle time of that sprint's
mean cycle time (sprints without such a task are skipped, which the
`filterMap` over the `Option`-valued sprint mean expresses). -/
def monthCycleTimeAvg (ts : List Task) : Option ℚ :=
  meanQ ((monthSprints ts).filterMap
    (fun u => sprintCycleTimeAvg (tasksOfSprint ts u)))

/-- `Cycle_Time_Median` of a month: median pooled once over the non-null
cycle times of all delivered tasks of the month. -/
def monthCycleTimeMedian (ts : List Task) : Option ℚ :=
  medianQ (sprintCycleTimes ts)

/-- Month predictability: mean of the per-sprint predictability values,
appending only sprints whose committed total is positive. -/
def monthPredictability (ts : List Task) : Option ℚ :=
  meanQ ((monthSprints ts).filterMap
    (fun u => sprintPredictability (tasksOfSprint ts u)))

/-- Month efficiency: `velocity_avg / team_size` when `team_size > 0`,
null otherwise (and null when the month has no sprints). -/
def monthEfficiency (teamSize : ℤ) (ts : List Task) : Option ℚ :=
  if teamSize > 0
  then (monthVelocityAvg ts).map (fun v => v / (teamSize : ℚ))
  else none

/-- Month rework: recomputed over the pooled delivered tasks of the
month — estimated bug points over estimated delivered points. -/
def monthRework (ts : List Task) : Option ℚ :=
  if totalPointsEstimated ts > 0
  then some (bugPointsEstimated ts / totalPointsEstimated ts * 100)
  else none

/-- Month rework over velocity (estimated numerator): pooled bug points
over the month-total velocity. -/
def monthReworkAchieved (ts : List Task) : Option ℚ :=
  if monthVelocityTotal ts > 0
  then some (bugPointsEstimated ts / monthVelocityTotal ts * 100)
  else none

/-- Month rework over velocity (effective numerator): pooled effective
bug points over the month-total velocity. -/
def monthReworkVelocity (ts : List Task) : Option ℚ :=
  if monthVelocityTotal ts > 0
  then (bugPointsEffective ts).map (fun b => b / monthVelocityTotal ts * 100)
  else none

/-! ## Summary (`MetricsCalculator.get_summary`) -/

/-- Ascending insertion sort on strings (`sorted(...)`). -/
def insertStr (x : String) : List String → List String
  | [] => [x]
  | y :: ys => if x < y then x :: y :: ys else y :: insertStr x ys

/-- `sorted(df['Sprint_Unified'].unique())`: the row order of the
sprint-metrics table. -/
def allSprints (df : List Task) : List String :=
  (uniqueKeepFirst (df.map (fun t => t.sprintUnified))).foldr insertStr []

/-- A summary column average: pandas `Series.mean()` skips nulls, so a
null per-sprint metric is excluded from the mean, not zeroed. -/
def summaryAvg (f : List Task → Option ℚ) (df : List Task) : Option ℚ :=
  meanQ ((allSprints df).filterMap (fun u => f (tasksOfSprint df u)))

/-! ## Cycle time per row (`DataProcessor._calculate_cycle_time`) -/

/-- The columns of one raw row read by `_calculate_cycle_time`:
`Is_Delivered`, `Fecha Inicio`, `Fecha Ready for Production`,
`Fecha Término` (dates as day numbers, null as `none`). -/
structure RawRow where
  isDelivered : Bool
  fechaInicio : Option ℕ
  fechaReadyForProduction : Option ℕ
  fechaTermino : Option ℕ
deriving DecidableEq, Repr

/-- The per-row delivery-date priority: `Fecha Ready for Production`
when non-null, else `Fecha Término`. -/
def resolvedDeliveryDate (row : RawRow) : Option ℕ :=
  match row.fechaReadyForProduction with
  | some e => some e
  | none => row.fechaTermino

/-- `DataProcessor._calculate_cycle_time`: null for non-delivered rows;
for delivered rows, null iff the start date or the resolved delivery
date is null, else the business-day count between them. -/
def calculateCycleTime (holidays : List ℕ) (row : RawRow) : Option ℕ :=
  if row.isDelivered = false then none
  else
    match row.fechaInicio, resolvedDeliveryDate row with
    | some s, some e => calculate_business_days (some s) (some e) holidays
    | _, _ => none

/-! ## Row filtering (`DataProcessor._filter_invalid_data`) -/

/-- The columns of one staged row read by `_filter_invalid_data` (after
`_add_calculated_columns`; the raw completion marker is kept so the
normalisation by `is_sprint_completed` appears explicitly).  After
`_clean_basic_data`, the `Sprint` column is a string in which a null
became the literal `"nan"`. -/
structure StagedRow where
  sprintCompletedRaw : CellValue
  sprint : String
  estado : String
  estimacionOriginal : Option ℚ
deriving DecidableEq, Repr

/-- `DataProcessor._filter_invalid_data`: keep only rows whose
completion marker normalises to true, then rows with a valid sprint
label; for "En Desarrollo" teams additionally drop state-9 rows with 0
estimated points. -/
def filterInvalidData (teamType : String) (rows : List StagedRow) : List StagedRow :=
  let r1 := rows.filter (fun r => is_sprint_completed r.sprintCompletedRaw)
  let r2 := r1.filter (fun r => r.sprint ≠ "nan")
  if teamType = "En Desarrollo" then
    r2.filter (fun r =>
      !(decide (r.estado = "9. Certificado QA" ∧ r.estimacionOriginal = some 0)))
  else r2

/-! ## Helper lemmas -/

theorem sum_map_filter_eq {α : Type} (p : α → Bool) (f : α → ℚ) (l : List α) :
    ((l.filter p).map f).sum = (l.map (fun a => if p a then f a else 0)).sum := by
  induction l with
  | nil => simp
  | cons a l ih => by_cases h : p a <;> simp [List.filter_cons, h, ih]

theorem sum_map_split {α : Type} (p : α → Bool) (f : α → ℚ) (l : List α) :
    (l.map f).sum =
      ((l.filter p).map f).sum + ((l.filter (fun a => !p a)).map f).sum := by
  induction l with
  | nil => simp
  | cons a l ih =>
    by_cases h : p a <;> simp [List.filter_cons, h, ih] <;> ring

theorem sum_map_div (l : List ℚ) (c : ℚ) :
    (l.map (fun x => x / c)).sum = l.sum / c := by
  induction l with
  | nil => simp
  | cons a l ih => simp [ih, add_div]

theorem meanQ_map_div (l : List ℚ) (c : ℚ) :
    meanQ (l.map (fun x => x / c)) = (meanQ l).map (fun v => v / c) := by
  cases l with
  | nil => simp [meanQ]
  | cons a l =>
    simp only [meanQ, List.map_cons]
    rw [show ((a / c) :: l.map (fun x => x / c)) = ((a :: l).map (fun x => x / c)) by simp]
    rw [sum_map_div, List.length_map]
    rw [div_right_comm]
    simp

theorem uniqueAux_disjoint_nodup :
    ∀ (l seen : List String),
      (∀ x ∈ uniqueAux l seen, x ∉ seen) ∧ (uniqueAux l seen).Nodup
  | [], seen => by simp [uniqueAux]
  | s :: rest, seen => by
    by_cases h : s ∈ seen
    · simp only [uniqueAux, if_pos h]
      exact uniqueAux_disjoint_nodup rest seen
    · simp only [uniqueAux, if_neg h]
      obtain ⟨hdisj, hnd⟩ := uniqueAux_disjoint_nodup rest (s :: seen)
      refine ⟨?_, ?_⟩
      · intro x hx hxseen
        rcases List.mem_cons.mp hx with rfl | hx'
        · exact h hxseen
        · exact hdisj x hx' (List.mem_cons_of_mem _ hxseen)
      · refine List.nodup_cons.mpr ⟨?_, hnd⟩
        intro hs
        exact hdisj s hs (List.mem_cons_self _ _)

theorem mem_uniqueAux :
    ∀ (l seen : List String) (x : String), x ∈ l →
      x ∈ uniqueAux l seen ∨ x ∈ seen
  | [], _, x => by simp
  | s :: rest, seen, x => by
    intro hx
    by_cases h : s ∈ seen
    · simp only [uniqueAux, if_pos h]
      rcases List.mem_cons.mp hx with rfl | hx'
      · right; exact h
      · exact mem_uniqueAux rest seen x hx'
    · simp only [uniqueAux, if_neg h]
      rcases List.mem_cons.mp hx with rfl | hx'
      · left; exact List.mem_cons_self _ _
      · rcases mem_uniqueAux rest (s :: seen) x hx' with h1 | h2
        · left; exact List.mem_cons_of_mem _ h1
        · rcases List.mem_cons.mp h2 with rfl | h3
          · left; exact List.mem_cons_self _ _
          · right; exact h3

theorem nodup_uniqueKeepFirst (l : List String) : (uniqueKeepFirst l).Nodup :=
  (uniqueAux_disjoint_nodup l []).2

theorem mem_uniqueKeepFirst {l : List String} {x : String} (hx : x ∈ l) :
    x ∈ uniqueKeepFirst l := by
  rcases mem_uniqueAux l [] x hx with h | h
  · exact h
  · simp at h

theorem partition_sum {α : Type} (k : α → String) (f : α → ℚ) :
    ∀ (us : List String), us.Nodup → ∀ (l : List α), (∀ a ∈ l, k a ∈ us) →
      (us.map (fun u => ((l.filter (fun a => k a = u)).map f).sum)).sum =
        (l.map f).sum := by
  intro us
  induction us with
  | nil =>
    intro _ l hl
    cases l with
    | nil => simp
    | cons a l => exact absurd (hl a (List.mem_cons_self a l)) (by simp)
  | cons u us ih =>
    intro hnd l hl
    have hu : u ∉ us := (List.nodup_cons.mp hnd).1
    have hnd' : us.Nodup := (List.nodup_cons.mp hnd).2
    have hsplit := sum_map_split (fun a => decide (k a = u)) f l
    simp only [List.map_cons, List.sum_cons]
    rw [hsplit]
    congr 1
    have hmem : ∀ a ∈ l.filter (fun a => !(decide (k a = u))), k a ∈ us := by
      intro a ha
      have h1 := (List.mem_filter.mp ha).1
      have h2 := (List.mem_filter.mp ha).2
      have hne : k a ≠ u := by
        intro hk
        simp [hk] at h2
      rcases List.mem_cons.mp (hl a h1) with h3 | h3
      · exact absurd h3 hne
      · exact h3
    rw [← ih hnd' (l.filter (fun a => !(decide (k a = u)))) hmem]
    apply congrArg List.sum
    apply List.map_congr_left
    intro v hv
    have hvne : v ≠ u := fun hvu => hu (hvu ▸ hv)
    apply congrArg List.sum
    apply congrArg (List.map f)
    rw [List.filter_filter]
    apply List.filter_congr
    intro a _
    by_cases hk : k a = v
    · have : k a ≠ u := fun h2 => hvne (by rw [← hk, h2])
      simp [hk, this, hvne]
    · simp [hk]

/-- The per-task contribution to velocity: delivered tasks count their
original estimate, undelivered tasks their achieved points (null as 0). -/
def velocityContrib (t : Task) : ℚ :=
  if t.isDelivered then t.estimacionOriginal.getD 0 else t.puntosLogrados.getD 0

theorem sprintVelocity_pooled (ts : List Task) :
    sprintVelocity ts = (ts.map velocityContrib).sum := by
  unfold sprintVelocity optSum deliveredTasks notDeliveredTasks
  rw [sum_map_split (fun t => t.isDelivered) velocityContrib ts]
  congr 1
  · apply congrArg List.sum
    apply List.map_congr_left
    intro t ht
    have := (List.mem_filter.mp ht).2
    simp [velocityContrib, this]
  · apply congrArg List.sum
    apply List.map_congr_left
    intro t ht
    have h2 := (List.mem_filter.mp ht).2
    have : t.isDelivered = false := by
      cases hd : t.isDelivered
      · rfl
      · simp [hd] at h2
    simp [velocityContrib, this]

theorem sum_over_sprints (f : Task → ℚ) (ts : List Task) :
    ((monthSprints ts).map (fun u => ((tasksOfSprint ts u).map f).sum)).sum =
      (ts.map f).sum := by
  apply partition_sum (fun t => t.sprintUnified) f (monthSprints ts)
    (nodup_uniqueKeepFirst _)
  intro t ht
  exact mem_uniqueKeepFirst (List.mem_map_of_mem _ ht)

/-- The per-task contribution to the estimated bug points. -/
def bugContrib (t : Task) : ℚ :=
  if t.isDelivered && t.isBug then t.estimacionOriginal.getD 0 else 0

theorem bugPointsEstimated_eq (ts : List Task) :
    bugPointsEstimated ts = (ts.map bugContrib).sum := by
  unfold bugPointsEstimated optSum deliveredTasks bugContrib
  rw [List.filter_filter]
  rw [sum_map_filter_eq]
  apply congrArg List.sum
  apply List.map_congr_left
  intro t _
  by_cases h1 : t.isDelivered <;> by_cases h2 : t.isBug <;> simp [h1, h2]

theorem bugPoints_month_split (ts : List Task) :
    bugPointsEstimated ts =
      ((monthSprints ts).map (fun u => bugPointsEstimated (tasksOfSprint ts u))).sum := by
  rw [bugPointsEstimated_eq, ← sum_over_sprints bugContrib ts]
  apply congrArg List.sum
  apply List.map_congr_left
  intro u _
  exact (bugPointsEstimated_eq _).symm

theorem filterMap_eq_map_of_forall_some {β γ : Type} (f : β → Option γ) (g : β → γ)
    (l : List β) (h : ∀ b ∈ l, f b = some (g b)) : l.filterMap f = l.map g := by
  induction l with
  | nil => simp
  | cons b l ih =>
    rw [List.filterMap_cons, h b (List.mem_cons_self _ _)]
    simp only [List.map_cons]
    rw [ih (fun x hx => h x (List.mem_cons_of_mem _ hx))]

theorem filterMap_eq_nil_of_forall_none {β γ : Type} (f : β → Option γ)
    (l : List β) (h : ∀ b ∈ l, f b = none) : l.filterMap f = [] := by
  induction l with
  | nil => simp
  | cons b l ih =>
    rw [List.filterMap_cons, h b (List.mem_cons_self _ _)]
    exact ih (fun x hx => h x (List.mem_cons_of_mem _ hx))

/-! ## Claim C2: sprint velocity formula -/

/-- The spec's end-to-end velocity scenario: a delivered bug estimated
at 2 and a delivered feature estimated at 8. -/
def c2Tasks : List Task :=
  [⟨"Bug", some 2, none, true, true, none, "Sprint 7", some "Octubre"⟩,
   ⟨"HDU", some 8, none, true, false, none, "Sprint 7", some "Octubre"⟩]

/-- A sprint mixing delivered and undelivered work: a delivered task
estimated at 5, an undelivered task with no achieved points, and an
undelivered task with achieved points 1. -/
def c2PartialTasks : List Task :=
  [⟨"HDU", some 5, none, true, false, none, "Sprint 8", some "Octubre"⟩,
   ⟨"HDU", some 4, none, false, false, none, "Sprint 8", some "Octubre"⟩,
   ⟨"HDU", some 2, some 1, false, false, none, "Sprint 8", some "Octubre"⟩]

/-- Claim C2: a sprint's velocity is the sum of estimated points over
the delivered tasks plus the sum of achieved points (null counted as 0)
over the undelivered tasks; equivalently, each task contributes its
estimate when delivered and its achieved points (default 0) otherwise.
On the spec's scenario (delivered bug estimated 2, delivered feature
estimated 8) the velocity is 10 and the estimated rework is 20%. -/
theorem sprint_velocity_spec :
    (∀ ts : List Task,
      sprintVelocity ts =
        optSum (fun t => t.estimacionOriginal) (deliveredTasks ts) +
          optSum (fun t => t.puntosLogrados) (notDeliveredTasks ts)) ∧
    (∀ ts : List Task, sprintVelocity ts = (ts.map velocityContrib).sum) ∧
    sprintVelocity c2Tasks = 10 ∧
    sprintRework c2Tasks = some 20 ∧
    sprintVelocity c2PartialTasks = 6 := by
  refine ⟨fun ts => rfl, fun ts => sprintVelocity_pooled ts, ?_, ?_, ?_⟩
  · norm_num [c2Tasks, sprintVelocity, optSum, deliveredTasks, notDeliveredTasks]
  · norm_num [c2Tasks, sprintRework, bugPointsEstimated, totalPointsEstimated,
      optSum, deliveredTasks]
  · norm_num [c2PartialTasks, sprintVelocity, optSum, deliveredTasks,
      notDeliveredTasks]

/-! ## Claim C3: the predictability scenario -/

/-- The spec's predictability scenario: 2 delivered tasks estimated 5
and 3, 2 undelivered tasks estimated 4 and 2, all in one sprint. -/
def c3Tasks : List Task :=
  [⟨"HDU", some 5, none, true, false, none, "Sprint 5", some "Septiembre"⟩,
   ⟨"HDU", some 3, none, true, false, none, "Sprint 5", some "Septiembre"⟩,
   ⟨"HDU", some 4, none, false, false, none, "Sprint 5", some "Septiembre"⟩,
   ⟨"HDU", some 2, none, false, false, none, "Sprint 5", some "Septiembre"⟩]

/-- Claim C3 is false on the code: for the scenario's task set the
committed points are 14 (= 5+3+4+2), not 20, so the predictability is
not 40%. -/
theorem c3_scenario_counterexample :
    ¬(committedPoints c3Tasks = 20 ∧ deliveredPoints c3Tasks = 8 ∧
      sprintPredictability c3Tasks = some 40) := by
  intro h
  have h1 := h.1
  norm_num [c3Tasks, committedPoints, optSum] at h1

/-- Claim C3 (amended): on the scenario's task set the committed points
are 14, the delivered points are 8, and the predictability is
100·8/14 = 400/7 ≈ 57.1%. -/
theorem c3_scenario_amended :
    committedPoints c3Tasks = 14 ∧ deliveredPoints c3Tasks = 8 ∧
      sprintPredictability c3Tasks = some (400 / 7) := by
  refine ⟨?_, ?_, ?_⟩ <;>
    norm_num [c3Tasks, committedPoints, deliveredPoints, sprintPredictability,
      optSum, deliveredTasks]

/-! ## Claim C4: month velocity is the mean of per-sprint velocities -/

/-- Claim C4: the month velocity average is the arithmetic mean of the
per-sprint velocities of the month's unified sprints (each computed by
the sprint velocity formula on that sprint's own tasks) and the month
velocity total is their sum (equal, by partitioning, to the pooled sum
of per-task velocity contributions); whenever the per-sprint mean
differs from some candidate pooled value, so does the pipeline's month
velocity average. -/
theorem month_velocity_per_sprint_mean (ts : List Task) :
    monthVelocityAvg ts =
      meanQ ((monthSprints ts).map (fun u => sprintVelocity (tasksOfSprint ts u))) ∧
    monthVelocityTotal ts =
      ((monthSprints ts).map (fun u => sprintVelocity (tasksOfSprint ts u))).sum ∧
    monthVelocityTotal ts = (ts.map velocityContrib).sum ∧
    (∀ q : ℚ,
      meanQ ((monthSprints ts).map (fun u => sprintVelocity (tasksOfSprint ts u))) ≠
          some q →
        monthVelocityAvg ts ≠ some q) := by
  refine ⟨rfl, rfl, ?_, ?_⟩
  · unfold monthVelocityTotal monthSprintVelocities
    rw [← sum_over_sprints velocityContrib ts]
    apply congrArg List.sum
    apply List.map_congr_left
    intro u _
    exact sprintVelocity_pooled _
  · intro q h
    exact h

/-- A month with two unified sprints holding an uneven number of tasks:
Sprint 9 has one delivered task (estimate 10); Sprint 10 has two
delivered tasks (estimates 2, 4) and one undelivered task (estimate 5,
no achieved points).  Per-sprint velocities are 10 and 6, mean 8; the
naive pooled estimate sum over sprint count would be 21/2. -/
def c4Tasks : List Task :=
  [⟨"HDU", some 10, none, true, false, none, "Sprint 9", some "Noviembre"⟩,
   ⟨"HDU", some 2, none, true, false, none, "Sprint 10", some "Noviembre"⟩,
   ⟨"HDU", some 4, none, true, false, none, "Sprint 10", some "Noviembre"⟩,
   ⟨"HDU", some 5, none, false, false, none, "Sprint 10", some "Noviembre"⟩]

/-- Witness for C4: on `c4Tasks` the per-sprint mean is 8, which
differs from the naive pooled value 21/2, and accordingly the
month-level velocity average is not 21/2 either. -/
theorem month_velocity_per_sprint_mean_witness :
    monthVelocityAvg c4Tasks ≠ some (21 / 2) := by
  apply (month_velocity_per_sprint_mean c4Tasks).2.2.2 (21 / 2)
  simp +decide [c4Tasks, monthSprints, uniqueKeepFirst, uniqueAux, tasksOfSprint,
    sprintVelocity, optSum, deliveredTasks, notDeliveredTasks, meanQ]
  norm_num

/-! ## Claim C1: month-level efficiency / rework aggregation -/

/-- A month with two unified sprints: Sprint 7 delivers a bug (estimate
1) and a feature (estimate 1), rework 50%; Sprint 8 delivers one feature
(estimate 8), rework 0%.  The mean of per-sprint rework is 25, while the
pooled month ratio is 100·1/10 = 10. -/
def c1Tasks : List Task :=
  [⟨"Bug", some 1, none, true, true, none, "Sprint 7", some "Octubre"⟩,
   ⟨"HDU", some 1, none, true, false, none, "Sprint 7", some "Octubre"⟩,
   ⟨"HDU", some 8, none, true, false, none, "Sprint 8", some "Octubre"⟩]

/-- Claim C1 is false on the code: the month-level rework is not the
mean of the per-sprint rework values (on `c1Tasks` the code's pooled
month rework is 10 while the mean of per-sprint rework values is 25). -/
theorem month_rework_not_mean_counterexample :
    monthRework c1Tasks ≠
      meanQ ((monthSprints c1Tasks).filterMap
        (fun u => sprintRework (tasksOfSprint c1Tasks u))) := by
  simp +decide [c1Tasks, monthRework, monthSprints, uniqueKeepFirst, uniqueAux,
    tasksOfSprint, sprintRework, bugPointsEstimated, totalPointsEstimated,
    deliveredTasks, optSum, meanQ]
  norm_num

/-- Claim C1 (amended): month-level efficiency equals the mean of the
per-sprint efficiency values (the code divides the month velocity
average by the team size, which is the same thing); the rework-on-
velocity variants divide the month's pooled bug-point numerators (equal
to the sums of the per-sprint numerators) by the month-total velocity;
but month-level rework is recomputed as a ratio over the month's pooled
delivered tasks (estimated bug points over estimated delivered points),
not as the mean of the per-sprint rework values. -/
theorem month_ratio_metrics_amended (teamSize : ℤ) (ts : List Task) :
    monthEfficiency teamSize ts =
      meanQ ((monthSprints ts).filterMap
        (fun u => sprintEfficiency teamSize (tasksOfSprint ts u))) ∧
    monthReworkAchieved ts =
      (if monthVelocityTotal ts > 0
       then some
        (((monthSprints ts).map
            (fun u => bugPointsEstimated (tasksOfSprint ts u))).sum /
          monthVelocityTotal ts * 100)
       else none) ∧
    monthReworkVelocity ts =
      (if monthVelocityTotal ts > 0
       then (bugPointsEffective ts).map (fun b => b / monthVelocityTotal ts * 100)
       else none) ∧
    monthRework ts =
      (if totalPointsEstimated ts > 0
       then some (bugPointsEstimated ts / totalPointsEstimated ts * 100)
       else none) := by
  refine ⟨?_, ?_, rfl, rfl⟩
  · by_cases h : teamSize > 0
    · rw [filterMap_eq_map_of_forall_some
        (fun u => sprintEfficiency teamSize (tasksOfSprint ts u))
        (fun u => sprintVelocity (tasksOfSprint ts u) / (teamSize : ℚ)) _
        (fun u _ => by simp [sprintEfficiency, h])]
      rw [show (monthSprints ts).map
            (fun u => sprintVelocity (tasksOfSprint ts u) / (teamSize : ℚ)) =
          ((monthSprints ts).map (fun u => sprintVelocity (tasksOfSprint ts u))).map
            (fun x => x / (teamSize : ℚ)) by rw [List.map_map]; rfl]
      rw [meanQ_map_div]
      simp only [monthEfficiency, if_pos h]
      rfl
    · simp only [monthEfficiency, if_neg h]
      rw [filterMap_eq_nil_of_forall_none
        (fun u => sprintEfficiency teamSize (tasksOfSprint ts u)) _
        (fun u _ => by simp [sprintEfficiency, h])]
      rfl
  · rw [← bugPoints_month_split ts]
    rfl

/-! ## Claim C5: month cycle-time mean of means vs pooled median -/

/-- A month with three unified sprints: Sprint 9 has delivered tasks
with cycle times 1 and 3 (sprint mean 2); Sprint 10 has one delivered
task with cycle time 5 (sprint mean 5); Sprint 11 has one delivered task
whose cycle time is null.  The mean of per-sprint means is 7/2 (Sprint
11 contributes nothing), while the pooled median over cycle times
1, 3, 5 is 3. -/
def c5Tasks : List Task :=
  [⟨"HDU", some 2, none, true, false, some 1, "Sprint 9", some "Noviembre"⟩,
   ⟨"HDU", some 2, none, true, false, some 3, "Sprint 9", some "Noviembre"⟩,
   ⟨"HDU", some 2, none, true, false, some 5, "Sprint 10", some "Noviembre"⟩,
   ⟨"HDU", some 2, none, true, false, none, "Sprint 11", some "Noviembre"⟩]

/-- Claim C5: the month cycle-time mean is the mean of the per-sprint
mean cycle times, where a sprint with no delivered task carrying a
non-null cycle time contributes no value (its per-sprint mean is null
and is filtered out, not zeroed), while the month cycle-time median is
computed once over the pooled non-null cycle times of the month's
delivered tasks; both are null when their source set is empty.  On
`c5Tasks` the mean of means is 7/2 but the pooled median is 3. -/
theorem month_cycle_time_asymmetry (ts : List Task) :
    monthCycleTimeAvg ts =
      meanQ ((monthSprints ts).filterMap
        (fun u => sprintCycleTimeAvg (tasksOfSprint ts u))) ∧
    (∀ u, sprintCycleTimes (tasksOfSprint ts u) = [] →
      sprintCycleTimeAvg (tasksOfSprint ts u) = none) ∧
    monthCycleTimeMedian ts =
      medianQ ((deliveredTasks ts).filterMap (fun t => t.cycleTimeDays)) ∧
    ((monthSprints ts).filterMap
        (fun u => sprintCycleTimeAvg (tasksOfSprint ts u)) = [] →
      monthCycleTimeAvg ts = none) ∧
    ((deliveredTasks ts).filterMap (fun t => t.cycleTimeDays) = [] →
      monthCycleTimeMedian ts = none) ∧
    monthCycleTimeAvg c5Tasks = some (7 / 2) ∧
    monthCycleTimeMedian c5Tasks = some 3 := by
  refine ⟨rfl, ?_, rfl, ?_, ?_, ?_, ?_⟩
  · intro u h
    simp [sprintCycleTimeAvg, h, meanQ]
  · intro h
    unfold monthCycleTimeAvg
    rw [h]
    rfl
  · intro h
    unfold monthCycleTimeMedian sprintCycleTimes
    rw [h]
    rfl
  · simp +decide [c5Tasks, monthCycleTimeAvg, monthSprints, uniqueKeepFirst,
      uniqueAux, tasksOfSprint, sprintCycleTimeAvg, sprintCycleTimes,
      deliveredTasks, meanQ]
    norm_num
  · simp +decide [c5Tasks, monthCycleTimeMedian, sprintCycleTimes,
      deliveredTasks, medianQ, sortAsc, insertAsc]

/-- Witness for C5: Sprint 11 of `c5Tasks` has a delivered task but no
non-null cycle time, so its per-sprint mean is null and drops out of the
month mean. -/
theorem month_cycle_time_asymmetry_witness :
    sprintCycleTimeAvg (tasksOfSprint c5Tasks "Sprint 11") = none := by
  apply (month_cycle_time_asymmetry c5Tasks).2.1 "Sprint 11"
  simp +decide [c5Tasks, tasksOfSprint, sprintCycleTimes, deliveredTasks]

/-! ## Claim C6: zero denominators yield null and are excluded from means -/

/-- A month with two unified sprints: Sprint 9 holds one undelivered
task with a null estimate (committed total 0, predictability null) and
Sprint 10 commits 8 points (4 delivered, 4 not), predictability 50%. -/
def c6Tasks : List Task :=
  [⟨"HDU", none, none, false, false, none, "Sprint 9", some "Noviembre"⟩,
   ⟨"HDU", some 4, none, true, false, none, "Sprint 10", some "Noviembre"⟩,
   ⟨"HDU", some 4, none, false, false, none, "Sprint 10", some "Noviembre"⟩]

/-- Claim C6: every ratio metric with a zero denominator is null (never
0), and null per-sprint values are excluded from — not averaged as zero
into — the month-level and summary means; in particular a sprint with
zero committed points has null predictability and contributes nothing
to the month predictability mean (the filtered mean over the sprints
with a value). -/
theorem ratio_null_policy (teamSize : ℤ) (ts : List Task) :
    (committedPoints ts = 0 → sprintPredictability ts = none) ∧
    (teamSize = 0 → sprintEfficiency teamSize ts = none) ∧
    (totalPointsEstimated ts = 0 → sprintRework ts = none) ∧
    (sprintVelocity ts = 0 → sprintReworkAchieved ts = none) ∧
    (sprintVelocity ts = 0 → sprintReworkVelocity ts = none) ∧
    monthPredictability ts =
      meanQ ((monthSprints ts).filterMap
        (fun u => sprintPredictability (tasksOfSprint ts u))) ∧
    summaryAvg sprintPredictability ts =
      meanQ ((allSprints ts).filterMap
        (fun u => sprintPredictability (tasksOfSprint ts u))) := by
  refine ⟨?_, ?_, ?_, ?_, ?_, rfl, rfl⟩
  · intro h; simp [sprintPredictability, h]
  · intro h; simp [sprintEfficiency, h]
  · intro h; simp [sprintRework, h]
  · intro h; simp [sprintReworkAchieved, h]
  · intro h; simp [sprintReworkVelocity, h]

/-- Witness for C6: on `c6Tasks`, Sprint 9 commits 0 points, its
predictability is null, and the month predictability is the mean over
Sprint 10 alone, i.e. 50 (zero-averaging would have given 25). -/
theorem ratio_null_policy_witness :
    sprintPredictability (tasksOfSprint c6Tasks "Sprint 9") = none ∧
    monthPredictability c6Tasks = some 50 := by
  constructor
  · apply (ratio_null_policy 5 (tasksOfSprint c6Tasks "Sprint 9")).1
    simp +decide [c6Tasks, tasksOfSprint, committedPoints, optSum]
  · simp +decide [c6Tasks, monthPredictability, monthSprints, uniqueKeepFirst,
      uniqueAux, tasksOfSprint, sprintPredictability, committedPoints,
      deliveredPoints, optSum, deliveredTasks, meanQ]
    norm_num

/-! ## Claim C7: per-row cycle-time policy -/

/-- Claim C7: cycle time is null for non-delivered rows; for delivered
rows the delivery date is `Fecha Ready for Production` when non-null and
otherwise `Fecha Término` (per-row two-level priority), and the cycle
time is null iff the start date or this resolved delivery date is null,
otherwise it is the (nonnegative) business-day count between them. -/
theorem cycle_time_row_policy (holidays : List ℕ) (row : RawRow) :
    (row.isDelivered = false → calculateCycleTime holidays row = none) ∧
    (∀ e, row.fechaReadyForProduction = some e →
      resolvedDeliveryDate row = some e) ∧
    (row.fechaReadyForProduction = none →
      resolvedDeliveryDate row = row.fechaTermino) ∧
    (row.isDelivered = true →
      (calculateCycleTime holidays row = none ↔
        row.fechaInicio = none ∨ resolvedDeliveryDate row = none)) ∧
    (∀ s e, row.isDelivered = true → row.fechaInicio = some s →
      resolvedDeliveryDate row = some e →
      calculateCycleTime holidays row = some (countBusinessDays s e holidays)) := by
  refine ⟨?_, ?_, ?_, ?_, ?_⟩
  · intro h; simp [calculateCycleTime, h]
  · intro e h; simp [resolvedDeliveryDate, h]
  · intro h; simp [resolvedDeliveryDate, h]
  · intro h
    rcases hs : row.fechaInicio with _ | s <;>
      rcases he : resolvedDeliveryDate row with _ | e <;>
        simp [calculateCycleTime, h, hs, he, calculate_business_days]
  · intro s e h hs he
    simp [calculateCycleTime, h, hs, he, calculate_business_days]

/-- A delivered row starting Mon 2024-10-07, with a null "Ready for
Production" date and completion date Fri 2024-10-11. -/
def c7Row : RawRow :=
  ⟨true, some (dayNumber 2024 10 7), none, some (dayNumber 2024 10 11)⟩

/-- Witness for C7: on `c7Row` the resolved delivery date falls back to
`Fecha Término` and the cycle time is the 5 business days of that
week. -/
theorem cycle_time_row_policy_witness :
    calculateCycleTime HOLIDAYS c7Row = some 5 := by
  have h := (cycle_time_row_policy HOLIDAYS c7Row).2.2.2.2
    (dayNumber 2024 10 7) (dayNumber 2024 10 11) rfl rfl rfl
  rw [h]
  decide

/-! ## Claim C8: the business-day count -/

/-- Claim C8: `calculate_business_days` is null when either date is
null and otherwise counts the days of the inclusive range whose weekday
is Monday–Friday and which are not configured holidays; a reversed
range yields 0, a single non-holiday weekday yields 1, and on the
configured holiday set: Sat 2024-10-12 to Sun 2024-10-13 gives 0, Mon
2024-10-07 to Fri 2024-10-11 gives 5, Mon 2024-10-07 to Mon 2024-10-14
gives 6, and the all-holiday range 2024-09-18 to 2024-09-19 gives 0. -/
theorem business_days_spec :
    (∀ e hs, calculate_business_days none e hs = none) ∧
    (∀ s hs, calculate_business_days s none hs = none) ∧
    (∀ s e hs, calculate_business_days (some s) (some e) hs =
      some (((List.range (e + 1 - s)).map (fun i => s + i)).countP
        (fun d => isBusinessDay d hs))) ∧
    (∀ d hs, isBusinessDay d hs = (decide (weekday d < 5) && !(hs.contains d))) ∧
    (∀ s e hs, e < s → calculate_business_days (some s) (some e) hs = some 0) ∧
    (∀ (s : ℕ) (hs : List ℕ), weekday s < 5 → s ∉ hs →
      calculate_business_days (some s) (some s) hs = some 1) ∧
    calculate_business_days (some (dayNumber 2024 10 9))
      (some (dayNumber 2024 10 9)) HOLIDAYS = some 1 ∧
    calculate_business_days (some (dayNumber 2024 10 12))
      (some (dayNumber 2024 10 13)) HOLIDAYS = some 0 ∧
    calculate_business_days (some (dayNumber 2024 10 7))
      (some (dayNumber 2024 10 11)) HOLIDAYS = some 5 ∧
    calculate_business_days (some (dayNumber 2024 10 7))
      (some (dayNumber 2024 10 14)) HOLIDAYS = some 6 ∧
    calculate_business_days (some (dayNumber 2024 9 18))
      (some (dayNumber 2024 9 19)) HOLIDAYS = some 0 := by
  refine ⟨?_, ?_, ?_, ?_, ?_, ?_, by decide, by decide, by decide, by decide,
    by decide⟩
  · intro e hs; rfl
  · intro s hs; cases s <;> rfl
  · intro s e hs; rfl
  · intro d hs
    by_cases h : weekday d < 5 <;> simp [isBusinessDay, h]
  · intro s e hs h
    have h0 : e + 1 - s = 0 := Nat.sub_eq_zero_of_le h
    simp [calculate_business_days, countBusinessDays, h0]
  · intro s hs h1 h2
    have h0 : s + 1 - s = 1 := by omega
    simp [calculate_business_days, countBusinessDays, h0, List.range_succ,
      isBusinessDay, h1, h2]

/-- Witness for C8: a reversed range (start after end) counts 0
business days, and a lone mid-week non-holiday day counts 1. -/
theorem business_days_spec_witness :
    calculate_business_days (some 10) (some 3) [] = some 0 ∧
    calculate_business_days (some (dayNumber 2025 3 5))
      (some (dayNumber 2025 3 5)) HOLIDAYS = some 1 := by
  constructor
  · exact business_days_spec.2.2.2.2.1 10 3 [] (by decide)
  · exact business_days_spec.2.2.2.2.2.1 (dayNumber 2025 3 5) HOLIDAYS
      (by decide) (by decide)

/-! ## Claim C9: sprint label unification -/

/-- Claim C9: for a non-null label, unification returns `"Sprint N"`
with `N` the numeric value (leading zeros dropped) of the first
case-insensitive `Sprint <digits>` pattern, and returns the stripped
label unchanged when no pattern occurs; in particular the two
"Sprint 07" variants unify to `"Sprint 7"`, `"Sprint 03"` to
`"Sprint 3"`, and `"Release Candidate"` is unchanged. -/
theorem unify_sprint_label_spec :
    (∀ s : String, findSprintNumber (pyStrip s).toList = none →
      extract_sprint_number s = pyStrip s) ∧
    (∀ (s : String) (n : ℕ), findSprintNumber (pyStrip s).toList = some n →
      extract_sprint_number s = "Sprint " ++ toString n) ∧
    extract_sprint_number "Sprint 07 FIDSIN" = "Sprint 7" ∧
    extract_sprint_number "Sprint 07 Auto3P" = "Sprint 7" ∧
    extract_sprint_number "Sprint 03" = "Sprint 3" ∧
    extract_sprint_number "Release Candidate" = "Release Candidate" := by
  refine ⟨?_, ?_, by decide, by decide, by decide, by decide⟩
  · intro s h
    simp only [extract_sprint_number, h]
  · intro s n h
    simp only [extract_sprint_number, h]

/-- Witness for C9: a lowercase label with no space before the digits
and leading zeros, `" sprint005X "`, is stripped, matched
case-insensitively, and unified to `"Sprint 5"`. -/
theorem unify_sprint_label_spec_witness :
    extract_sprint_number " sprint005X " = "Sprint 5" :=
  unify_sprint_label_spec.2.1 " sprint005X " 5 (by decide)

/-! ## Claim C10: only completed sprints reach aggregation -/

/-- Rows of `filterInvalidData` output have a completion marker that
normalises to true (helper for the claim theorem and its witness). -/
theorem mem_filterInvalidData_completed (teamType : String)
    (rows : List StagedRow) (r : StagedRow)
    (hr : r ∈ filterInvalidData teamType rows) :
    is_sprint_completed r.sprintCompletedRaw = true := by
  unfold filterInvalidData at hr
  by_cases h : teamType = "En Desarrollo"
  · rw [if_pos h] at hr
    exact (List.mem_filter.mp
      (List.mem_filter.mp (List.mem_filter.mp hr).1).1).2
  · rw [if_neg h] at hr
    exact (List.mem_filter.mp (List.mem_filter.mp hr).1).2

/-- Claim C10: the processing stage keeps only rows whose
sprint-completion marker normalises to true — a row whose marker does
not normalise to true is silently dropped and is absent from the table
the metric aggregation consumes. -/
theorem filter_keeps_only_completed :
    (∀ (teamType : String) (rows : List StagedRow) (r : StagedRow),
      r ∈ filterInvalidData teamType rows →
      is_sprint_completed r.sprintCompletedRaw = true) ∧
    (∀ (teamType : String) (rows : List StagedRow) (r : StagedRow),
      is_sprint_completed r.sprintCompletedRaw = false →
      r ∉ filterInvalidData teamType rows) := by
  refine ⟨mem_filterInvalidData_completed, ?_⟩
  intro teamType rows r hfalse hr
  have := mem_filterInvalidData_completed teamType rows r hr
  rw [hfalse] at this
  exact Bool.false_ne_true this

/-- A row whose completion marker is the string `"x"` (normalising to
false) next to one marked `"v"` (normalising to true). -/
def c10BadRow : StagedRow := ⟨.str "x", "Sprint 2", "13. Producción", some 1⟩

/-- A completed row used alongside `c10BadRow`. -/
def c10GoodRow : StagedRow := ⟨.str "v", "Sprint 2", "13. Producción", some 1⟩

/-- Witness for C10: the row with the non-`"v"` marker is dropped by the
filter stage. -/
theorem filter_keeps_only_completed_witness :
    c10BadRow ∉ filterInvalidData "Productivo" [c10BadRow, c10GoodRow] :=
  filter_keeps_only_completed.2 "Productivo" [c10BadRow, c10GoodRow] c10BadRow
    (by decide)

end AgileMetrics

